import Mathlib

/-!
Shallow embedding of the HC-12 driver (src/src/hc_12.rs).

The driver talks to the radio module over a UART plus one strobe ("set")
line.  Machine state is modelled by `Hc12State`; the behaviour of the
transport during one command exchange is scripted by `ExchangeEnv`
(whether the write succeeds, whether the flush succeeds, and which bytes
the buffered read returns).  Rust `panic!`-style aborts (from `unwrap()`
on fallible operations) are modelled by the `Outcome.crashed` result.
-/

/-- Error enum, from `Hc12Error` (hc_12.rs lines 12-22).  The payload of
the `UartError` variant (an esp-hal error value) is elided: the driver
never inspects it. -/
inductive Hc12Error where
  | test
  | baudRate
  | autoBaudRate
  | transmissionMode
  | default
  | config
  | uartError
  | invalidResponse
deriving DecidableEq, Repr

/-- Transmission-mode enum, from `TransmissionMode` (lines 30-35). -/
inductive TransmissionMode where
  | fu1
  | fu2
  | fu3
  | fu4
deriving DecidableEq, Repr

/-- From `impl From<TransmissionMode> for u32` (lines 48-57); the
by-reference impl (lines 37-46) is the identical mapping. -/
def TransmissionMode.toU32 : TransmissionMode → Nat
  | .fu1 => 1
  | .fu2 => 2
  | .fu3 => 3
  | .fu4 => 4

/-- Baud-rate enum, from `BaudRate` (lines 59-70); `Baud9600` is the
`#[default]` variant. -/
inductive BaudRate where
  | baud1200
  | baud2400
  | baud4800
  | baud9600
  | baud19200
  | baud38400
  | baud57600
  | baud115200
deriving DecidableEq, Repr

/-- From `impl From<&BaudRate> for &str` (lines 72-85). -/
def BaudRate.toStr : BaudRate → String
  | .baud1200 => "1200"
  | .baud2400 => "2400"
  | .baud4800 => "4800"
  | .baud9600 => "9600"
  | .baud19200 => "19200"
  | .baud38400 => "38400"
  | .baud57600 => "57600"
  | .baud115200 => "115200"

/-- From `impl From<BaudRate> for u32` (lines 87-100); the by-reference
impl (lines 102-115) is the identical mapping. -/
def BaudRate.toU32 : BaudRate → Nat
  | .baud1200 => 1200
  | .baud2400 => 2400
  | .baud4800 => 4800
  | .baud9600 => 9600
  | .baud19200 => 19200
  | .baud38400 => 38400
  | .baud57600 => 57600
  | .baud115200 => 115200

/-- Observable primitive actions the driver performs on the transport and
the strobe line, recorded in execution order. -/
inductive Act where
  | drainRead
  | strobeLow
  | strobeHigh
  | delayMs : Nat → Act
  | writeBytes : List Nat → Act
  | flushCall
  | readBuffered
  | setConfigBaud : Nat → Act
deriving DecidableEq, Repr

/-- Driver-visible machine state: the strobe-line level, the baud rate
the transport is currently configured to, whether `set_config` calls
succeed (an environment property), and the trace of actions so far. -/
structure Hc12State where
  strobeHigh : Bool
  baud : Nat
  reconfigOk : Bool
  trace : List Act
deriving DecidableEq, Repr

/-- Scripted transport behaviour for one command exchange: the result of
`write_bytes`, of `flush_async` (consulted only by the async variant),
and of the post-delay `read_buffered_bytes` (`none` is a read error,
`some bs` returns the bytes `bs`). -/
structure ExchangeEnv where
  writeOk : Bool
  flushOk : Bool
  readRes : Option (List Nat)
deriving DecidableEq, Repr

/-- Result of a driver operation: a value, a returned `Hc12Error`, or an
abort caused by an `unwrap()` on a failed operation. -/
inductive Outcome (α : Type) where
  | ok : α → Outcome α
  | err : Hc12Error → Outcome α
  | crashed
deriving DecidableEq, Repr

/-- Append one action to the trace. -/
def traceAdd (st : Hc12State) (a : Act) : Hc12State :=
  { st with trace := st.trace ++ [a] }

/-- `set.set_low()`. -/
def setLowS (st : Hc12State) : Hc12State :=
  { st with strobeHigh := false, trace := st.trace ++ [Act.strobeLow] }

/-- `set.set_high()`. -/
def setHighS (st : Hc12State) : Hc12State :=
  { st with strobeHigh := true, trace := st.trace ++ [Act.strobeHigh] }

/-- A timed delay of `ms` milliseconds (blocking `delay_millis` or async
`Timer::after_millis`). -/
def delayS (st : Hc12State) (ms : Nat) : Hc12State :=
  { st with trace := st.trace ++ [Act.delayMs ms] }

/-- `uart.set_config(&Config::default().with_baudrate(n))`: the call is
always recorded; the configured baud changes only when the call
succeeds (`st.reconfigOk`). -/
def setConfigS (st : Hc12State) (n : Nat) : Hc12State :=
  if st.reconfigOk then
    { st with baud := n, trace := st.trace ++ [Act.setConfigBaud n] }
  else
    { st with trace := st.trace ++ [Act.setConfigBaud n] }

/-- Bytes of an ASCII string (all command and response literals in the
driver are ASCII, where codepoint = UTF-8 byte). -/
def strBytes (s : String) : List Nat :=
  s.toList.map Char.toNat

/-- UTF-8 continuation byte. -/
def contB (b : Nat) : Bool :=
  decide (0x80 ≤ b) && decide (b ≤ 0xBF)

/-- Constraint on the first continuation byte of a three-byte sequence
(excludes overlong forms and surrogates). -/
def cont3First (b b1 : Nat) : Bool :=
  if b = 0xE0 then decide (0xA0 ≤ b1) && decide (b1 ≤ 0xBF)
  else if b = 0xED then decide (0x80 ≤ b1) && decide (b1 ≤ 0x9F)
  else contB b1

/-- Constraint on the first continuation byte of a four-byte sequence
(excludes overlong forms and codepoints above 0x10FFFF). -/
def cont4First (b b1 : Nat) : Bool :=
  if b = 0xF0 then decide (0x90 ≤ b1) && decide (b1 ≤ 0xBF)
  else if b = 0xF4 then decide (0x80 ≤ b1) && decide (b1 ≤ 0x8F)
  else contB b1

/-- UTF-8 validation/decoding, as performed by
`String::from_utf8(Vec::from_slice(..))` (core str::from_utf8): returns
the decoded characters, or `none` when the bytes are not valid UTF-8. -/
def utf8Decode : List Nat → Option (List Char)
  | [] => some []
  | b :: rest =>
    if b ≤ 0x7F then
      match utf8Decode rest with
      | some cs => some (Char.ofNat b :: cs)
      | none => none
    else if b < 0xC2 then none
    else if b ≤ 0xDF then
      match rest with
      | [] => none
      | b1 :: rest1 =>
        if contB b1 then
          match utf8Decode rest1 with
          | some cs => some (Char.ofNat ((b - 0xC0) * 0x40 + (b1 - 0x80)) :: cs)
          | none => none
        else none
    else if b ≤ 0xEF then
      match rest with
      | b1 :: b2 :: rest2 =>
        if cont3First b b1 && contB b2 then
          match utf8Decode rest2 with
          | some cs =>
            some (Char.ofNat ((b - 0xE0) * 0x1000 + (b1 - 0x80) * 0x40 + (b2 - 0x80)) :: cs)
          | none => none
        else none
      | _ => none
    else if b ≤ 0xF4 then
      match rest with
      | b1 :: b2 :: b3 :: rest3 =>
        if cont4First b b1 && contB b2 && contB b3 then
          match utf8Decode rest3 with
          | some cs =>
            some (Char.ofNat ((b - 0xF0) * 0x40000 + (b1 - 0x80) * 0x1000 +
              (b2 - 0x80) * 0x40 + (b3 - 0x80)) :: cs)
          | none => none
        else none
      | _ => none
    else none

/-- Rust `char::is_whitespace` (the Unicode White_Space property), used
by `str::trim`. -/
def isRustWhitespace (c : Char) : Bool :=
  c == ' ' || c == '\t' || c == '\n' || c == '\r'
    || c.toNat == 0x0B || c.toNat == 0x0C
    || c.toNat == 0x85 || c.toNat == 0xA0 || c.toNat == 0x1680
    || (decide (0x2000 ≤ c.toNat) && decide (c.toNat ≤ 0x200A))
    || c.toNat == 0x2028 || c.toNat == 0x2029
    || c.toNat == 0x202F || c.toNat == 0x205F || c.toNat == 0x3000

/-- Rust `str::trim`: strip leading and trailing whitespace. -/
def trimChars (s : List Char) : List Char :=
  ((s.dropWhile isRustWhitespace).reverse.dropWhile isRustWhitespace).reverse

/-- Rust `str::split(",")`: always yields at least one (possibly empty)
field; adjacent separators yield empty fields. -/
def splitOnComma : List Char → List (List Char)
  | [] => [[]]
  | c :: rest =>
    if c = ',' then [] :: splitOnComma rest
    else
      match splitOnComma rest with
      | f :: fs => (c :: f) :: fs
      | [] => [[c]]

/-- Rust byte slice `&s[1..]` on a `&str`: aborts (`none`) when the
string is empty (byte index 1 out of bounds) or its first character
occupies more than one byte (index 1 is not a char boundary). -/
def sliceFrom1 : List Char → Option (List Char)
  | [] => none
  | c :: rest => if c.toNat ≤ 0x7F then some rest else none

/-- ASCII decimal digit. -/
def isDigitChar (c : Char) : Bool :=
  decide ('0' ≤ c) && decide (c ≤ '9')

/-- Accumulate decimal digits; `none` on the first non-digit. -/
def parseDigits : Nat → List Char → Option Nat
  | acc, [] => some acc
  | acc, c :: rest =>
    if isDigitChar c then parseDigits (acc * 10 + (c.toNat - 48)) rest
    else none

/-- Rust `str::parse::<u32>`: an optional leading plus sign, then at
least one decimal digit, value at most `u32::MAX`; anything else is a
parse error. -/
def parseU32 (s : List Char) : Option Nat :=
  let body := match s with
    | c :: rest => if c = '+' then rest else s
    | [] => s
  match body with
  | [] => none
  | _ =>
    match parseDigits 0 body with
    | some n => if n < 4294967296 then some n else none
    | none => none

/-- Blocking `send_command` (lines 174-197): drain stale buffered bytes
(errors ignored), strobe low, 200 ms settle, write the command bytes
(faults propagate), 200 ms response delay, buffered read into a 14-byte
buffer (faults propagate), strobe high, 200 ms trailing settle, then
UTF-8 decode of the bytes read. -/
def sendCommandB (st : Hc12State) (env : ExchangeEnv) (cmd : List Nat) :
    Hc12State × Outcome (List Char) :=
  let st1 := traceAdd st Act.drainRead
  let st2 := delayS (setLowS st1) 200
  let st3 := traceAdd st2 (Act.writeBytes cmd)
  if env.writeOk = false then (st3, Outcome.err Hc12Error.uartError)
  else
    let st4 := traceAdd (delayS st3 200) Act.readBuffered
    match env.readRes with
    | none => (st4, Outcome.err Hc12Error.uartError)
    | some bs =>
      let st5 := delayS (setHighS st4) 200
      match utf8Decode (bs.take 14) with
      | none => (st5, Outcome.err Hc12Error.invalidResponse)
      | some cs => (st5, Outcome.ok cs)

/-- Async `send_command` (lines 309-333): same as the blocking variant
except that after the write it awaits `flush_async` (faults propagate)
and the response delay is 80 ms instead of 200 ms. -/
def sendCommandA (st : Hc12State) (env : ExchangeEnv) (cmd : List Nat) :
    Hc12State × Outcome (List Char) :=
  let st1 := traceAdd st Act.drainRead
  let st2 := delayS (setLowS st1) 200
  let st3 := traceAdd st2 (Act.writeBytes cmd)
  if env.writeOk = false then (st3, Outcome.err Hc12Error.uartError)
  else
    let st4 := traceAdd st3 Act.flushCall
    if env.flushOk = false then (st4, Outcome.err Hc12Error.uartError)
    else
      let st5 := traceAdd (delayS st4 80) Act.readBuffered
      match env.readRes with
      | none => (st5, Outcome.err Hc12Error.uartError)
      | some bs =>
        let st6 := delayS (setHighS st5) 200
        match utf8Decode (bs.take 14) with
        | none => (st6, Outcome.err Hc12Error.invalidResponse)
        | some cs => (st6, Outcome.ok cs)

/-- Blocking `test` (lines 199-209): sends `AT`; `Hc12Error::Test` unless
the decoded response is exactly `OK\r\n`.  (The command literal fits the
14-byte frame, so the `push_str(..).unwrap()` cannot abort.) -/
def testB (st : Hc12State) (env : ExchangeEnv) : Hc12State × Outcome Unit :=
  match sendCommandB st env (strBytes "AT") with
  | (st1, Outcome.ok cs) =>
    if cs = "OK\r\n".toList then (st1, Outcome.ok ()) else (st1, Outcome.err Hc12Error.test)
  | (st1, Outcome.err e) => (st1, Outcome.err e)
  | (st1, Outcome.crashed) => (st1, Outcome.crashed)

/-- Async `test` (lines 335-345): identical to the blocking variant over
the async `send_command`. -/
def testA (st : Hc12State) (env : ExchangeEnv) : Hc12State × Outcome Unit :=
  match sendCommandA st env (strBytes "AT") with
  | (st1, Outcome.ok cs) =>
    if cs = "OK\r\n".toList then (st1, Outcome.ok ()) else (st1, Outcome.err Hc12Error.test)
  | (st1, Outcome.err e) => (st1, Outcome.err e)
  | (st1, Outcome.crashed) => (st1, Outcome.crashed)

/-- The `AT+B<rate>` command text built by `write!(command, ..)`
(10 bytes at most, so the capped string cannot overflow). -/
def setBaudCmd (r : BaudRate) : String :=
  "AT+B" ++ Nat.repr r.toU32

/-- The `OK+B<rate>\r\n` acknowledgement text the driver expects. -/
def setBaudExpected (r : BaudRate) : String :=
  "OK+B" ++ Nat.repr r.toU32 ++ "\r\n"

/-- Blocking `set_baud` (lines 235-252): exchange `AT+B<rate>`;
propagate exchange faults; then reconfigure the transport to the new
rate (a reconfigure fault maps, as in the source, to
`Hc12Error::TransmissionMode`); finally require the decoded response to
equal `OK+B<rate>\r\n`, else `Hc12Error::BaudRate`.  The reconfiguration
happens before the comparison, so a mismatch still leaves the transport
at the requested rate. -/
def setBaudB (st : Hc12State) (env : ExchangeEnv) (r : BaudRate) :
    Hc12State × Outcome Unit :=
  match sendCommandB st env (strBytes (setBaudCmd r)) with
  | (st1, Outcome.ok cs) =>
    let st2 := setConfigS st1 r.toU32
    if st1.reconfigOk = false then (st2, Outcome.err Hc12Error.transmissionMode)
    else if cs = (setBaudExpected r).toList then (st2, Outcome.ok ())
    else (st2, Outcome.err Hc12Error.baudRate)
  | (st1, Outcome.err e) => (st1, Outcome.err e)
  | (st1, Outcome.crashed) => (st1, Outcome.crashed)

/-- Async `set_baud` (lines 371-388): identical logic over the async
`send_command`. -/
def setBaudA (st : Hc12State) (env : ExchangeEnv) (r : BaudRate) :
    Hc12State × Outcome Unit :=
  match sendCommandA st env (strBytes (setBaudCmd r)) with
  | (st1, Outcome.ok cs) =>
    let st2 := setConfigS st1 r.toU32
    if st1.reconfigOk = false then (st2, Outcome.err Hc12Error.transmissionMode)
    else if cs = (setBaudExpected r).toList then (st2, Outcome.ok ())
    else (st2, Outcome.err Hc12Error.baudRate)
  | (st1, Outcome.err e) => (st1, Outcome.err e)
  | (st1, Outcome.crashed) => (st1, Outcome.crashed)

/-- The `AT+FU<digit>` command text. -/
def setTmCmd (m : TransmissionMode) : String :=
  "AT+FU" ++ Nat.repr m.toU32

/-- Expected field 0 in the blocking `set_transmission_mode`
(line 264): `OK+FU<digit>` with no terminator. -/
def setTmExpectedB (m : TransmissionMode) : String :=
  "OK+FU" ++ Nat.repr m.toU32

/-- Expected field 0 in the async `set_transmission_mode`
(lines 400-405): `OK+FU<digit>\r\n`, terminator included. -/
def setTmExpectedA (m : TransmissionMode) : String :=
  "OK+FU" ++ Nat.repr m.toU32 ++ "\r\n"

/-- Shared tail of `set_transmission_mode` after the exchange (blocking
lines 263-281, async lines 399-422): split the response on commas;
field 0 must equal `expected` (else `Hc12Error::TransmissionMode`); if a
second field is present, drop its first byte (`&s[1..]` aborts on an
empty field), trim, parse as `u32` (`.unwrap()` aborts on a parse
failure) and reconfigure the transport to the parsed rate (a
reconfigure fault maps to `Hc12Error::TransmissionMode`). -/
def setTmValidate (st1 : Hc12State) (expected : String) (cs : List Char) :
    Hc12State × Outcome Unit :=
  match splitOnComma cs with
  | [] => (st1, Outcome.err Hc12Error.transmissionMode)
  | f0 :: restFields =>
    if f0 = expected.toList then
      match restFields with
      | [] => (st1, Outcome.ok ())
      | f1 :: _ =>
        match sliceFrom1 f1 with
        | none => (st1, Outcome.crashed)
        | some tail =>
          match parseU32 (trimChars tail) with
          | none => (st1, Outcome.crashed)
          | some n =>
            let st2 := setConfigS st1 n
            if st1.reconfigOk = false then (st2, Outcome.err Hc12Error.transmissionMode)
            else (st2, Outcome.ok ())
    else (st1, Outcome.err Hc12Error.transmissionMode)

/-- Blocking `set_transmission_mode` (lines 254-282). -/
def setTransmissionModeB (st : Hc12State) (env : ExchangeEnv)
    (m : TransmissionMode) : Hc12State × Outcome Unit :=
  match sendCommandB st env (strBytes (setTmCmd m)) with
  | (st1, Outcome.ok cs) => setTmValidate st1 (setTmExpectedB m) cs
  | (st1, Outcome.err e) => (st1, Outcome.err e)
  | (st1, Outcome.crashed) => (st1, Outcome.crashed)

/-- Async `set_transmission_mode` (lines 390-423); unlike the blocking
variant, its expected field 0 carries the `\r\n` terminator. -/
def setTransmissionModeA (st : Hc12State) (env : ExchangeEnv)
    (m : TransmissionMode) : Hc12State × Outcome Unit :=
  match sendCommandA st env (strBytes (setTmCmd m)) with
  | (st1, Outcome.ok cs) => setTmValidate st1 (setTmExpectedA m) cs
  | (st1, Outcome.err e) => (st1, Outcome.err e)
  | (st1, Outcome.crashed) => (st1, Outcome.crashed)

/-- Blocking `set_default` (lines 284-297): exchange `AT+DEFAULT`,
collapsing every exchange error to `Hc12Error::Default`; then require
the response `OK+DEFAULT\r\n`, else `Hc12Error::Default`. -/
def setDefaultB (st : Hc12State) (env : ExchangeEnv) : Hc12State × Outcome Unit :=
  match sendCommandB st env (strBytes "AT+DEFAULT") with
  | (st1, Outcome.ok cs) =>
    if cs = "OK+DEFAULT\r\n".toList then (st1, Outcome.ok ())
    else (st1, Outcome.err Hc12Error.default)
  | (st1, Outcome.err _) => (st1, Outcome.err Hc12Error.default)
  | (st1, Outcome.crashed) => (st1, Outcome.crashed)

/-- Async `set_default` (lines 425-439): identical logic over the async
`send_command`. -/
def setDefaultA (st : Hc12State) (env : ExchangeEnv) : Hc12State × Outcome Unit :=
  match sendCommandA st env (strBytes "AT+DEFAULT") with
  | (st1, Outcome.ok cs) =>
    if cs = "OK+DEFAULT\r\n".toList then (st1, Outcome.ok ())
    else (st1, Outcome.err Hc12Error.default)
  | (st1, Outcome.err _) => (st1, Outcome.err Hc12Error.default)
  | (st1, Outcome.crashed) => (st1, Outcome.crashed)

/-- The candidate array scanned by `auto_baud` (lines 212-221 and
348-357), in source order. -/
def candidates : List BaudRate :=
  [BaudRate.baud1200, BaudRate.baud2400, BaudRate.baud4800, BaudRate.baud9600,
   BaudRate.baud19200, BaudRate.baud38400, BaudRate.baud57600, BaudRate.baud115200]

/-- Loop body of the blocking `auto_baud` (lines 211-233): for each
candidate, `set_config(..).unwrap()` (an abort when reconfiguration
fails), a 40 ms settle, then `test()`; the first candidate whose test
succeeds is returned, and `AutoBaudRate` is returned after the list is
exhausted.  The `i`-th iteration consults the scripted exchange
`envs i`. -/
def autoBaudGoB (envs : Nat → ExchangeEnv) :
    Hc12State → Nat → List BaudRate → Hc12State × Outcome BaudRate
  | st, _, [] => (st, Outcome.err Hc12Error.autoBaudRate)
  | st, i, c :: cs =>
    let st1 := setConfigS st c.toU32
    if st.reconfigOk = false then (st1, Outcome.crashed)
    else
      let st2 := delayS st1 40
      match testB st2 (envs i) with
      | (st3, Outcome.ok _) => (st3, Outcome.ok c)
      | (st3, Outcome.err _) => autoBaudGoB envs st3 (i + 1) cs
      | (st3, Outcome.crashed) => (st3, Outcome.crashed)

/-- Loop body of the async `auto_baud` (lines 347-369). -/
def autoBaudGoA (envs : Nat → ExchangeEnv) :
    Hc12State → Nat → List BaudRate → Hc12State × Outcome BaudRate
  | st, _, [] => (st, Outcome.err Hc12Error.autoBaudRate)
  | st, i, c :: cs =>
    let st1 := setConfigS st c.toU32
    if st.reconfigOk = false then (st1, Outcome.crashed)
    else
      let st2 := delayS st1 40
      match testA st2 (envs i) with
      | (st3, Outcome.ok _) => (st3, Outcome.ok c)
      | (st3, Outcome.err _) => autoBaudGoA envs st3 (i + 1) cs
      | (st3, Outcome.crashed) => (st3, Outcome.crashed)

/-- Blocking `auto_baud`. -/
def autoBaudB (st : Hc12State) (envs : Nat → ExchangeEnv) :
    Hc12State × Outcome BaudRate :=
  autoBaudGoB envs st 0 candidates

/-- Async `auto_baud`. -/
def autoBaudA (st : Hc12State) (envs : Nat → ExchangeEnv) :
    Hc12State × Outcome BaudRate :=
  autoBaudGoA envs st 0 candidates

/-- Strobe-line transitions performed by the blocking constructor
`Hc12::<Blocking>::new` (lines 140-146) after the pin is created at
`Level::Low`: `set_high`, 200 ms, `set_low`, 200 ms. -/
def newBlockingStrobeActs : List Act :=
  [Act.strobeHigh, Act.delayMs 200, Act.strobeLow, Act.delayMs 200]

/-- Strobe-line transitions performed by the async constructor
`Hc12::<Async>::new` (lines 164-167) after the pin is created at
`Level::Low`: `set_high`, 200 ms. -/
def newAsyncStrobeActs : List Act :=
  [Act.strobeHigh, Act.delayMs 200]

/-- Strobe level after running a list of actions from level `init`
(`true` is high). -/
def strobeAfter (init : Bool) (acts : List Act) : Bool :=
  acts.foldl
    (fun s a =>
      match a with
      | Act.strobeHigh => true
      | Act.strobeLow => false
      | _ => s)
    init

/-- Strobe level when `send_command` (blocking) returns: high exactly
when both the write and the buffered read succeeded. -/
def sendStrobeB (env : ExchangeEnv) : Bool :=
  env.writeOk && env.readRes.isSome

/-- Strobe level when `send_command` (async) returns: high exactly when
the write, the flush and the buffered read all succeeded. -/
def sendStrobeA (env : ExchangeEnv) : Bool :=
  env.writeOk && (env.flushOk && env.readRes.isSome)

/-- Result of the blocking `send_command` as a function of the scripted
exchange alone. -/
def sendOutcomeB (env : ExchangeEnv) : Outcome (List Char) :=
  if env.writeOk = false then Outcome.err Hc12Error.uartError
  else
    match env.readRes with
    | none => Outcome.err Hc12Error.uartError
    | some bs =>
      match utf8Decode (bs.take 14) with
      | none => Outcome.err Hc12Error.invalidResponse
      | some cs => Outcome.ok cs

/-- Result of the async `send_command` as a function of the scripted
exchange alone. -/
def sendOutcomeA (env : ExchangeEnv) : Outcome (List Char) :=
  if env.writeOk = false then Outcome.err Hc12Error.uartError
  else if env.flushOk = false then Outcome.err Hc12Error.uartError
  else
    match env.readRes with
    | none => Outcome.err Hc12Error.uartError
    | some bs =>
      match utf8Decode (bs.take 14) with
      | none => Outcome.err Hc12Error.invalidResponse
      | some cs => Outcome.ok cs

/-- Actions appended to the trace by the blocking `send_command`. -/
def sendTraceB (env : ExchangeEnv) (cmd : List Nat) : List Act :=
  [Act.drainRead, Act.strobeLow, Act.delayMs 200, Act.writeBytes cmd] ++
    (if env.writeOk = false then []
     else
       [Act.delayMs 200, Act.readBuffered] ++
         (match env.readRes with
          | none => []
          | some _ => [Act.strobeHigh, Act.delayMs 200]))

/-- Actions appended to the trace by the async `send_command`; note the
`flushCall` between the write and the response delay, absent from
`sendTraceB`. -/
def sendTraceA (env : ExchangeEnv) (cmd : List Nat) : List Act :=
  [Act.drainRead, Act.strobeLow, Act.delayMs 200, Act.writeBytes cmd] ++
    (if env.writeOk = false then []
     else
       [Act.flushCall] ++
         (if env.flushOk = false then []
          else
            [Act.delayMs 80, Act.readBuffered] ++
              (match env.readRes with
               | none => []
               | some _ => [Act.strobeHigh, Act.delayMs 200])))

/-- Result of the blocking `test` as a function of the scripted
exchange alone. -/
def testOutB (env : ExchangeEnv) : Outcome Unit :=
  match sendOutcomeB env with
  | Outcome.ok cs =>
    if cs = "OK\r\n".toList then Outcome.ok () else Outcome.err Hc12Error.test
  | Outcome.err e => Outcome.err e
  | Outcome.crashed => Outcome.crashed

/-- Result of the async `test` as a function of the scripted exchange
alone. -/
def testOutA (env : ExchangeEnv) : Outcome Unit :=
  match sendOutcomeA env with
  | Outcome.ok cs =>
    if cs = "OK\r\n".toList then Outcome.ok () else Outcome.err Hc12Error.test
  | Outcome.err e => Outcome.err e
  | Outcome.crashed => Outcome.crashed

/-- A reference machine state: strobe high (idle), transport at 1200
baud, reconfiguration succeeding, empty trace. -/
def st0 : Hc12State :=
  { strobeHigh := true, baud := 1200, reconfigOk := true, trace := [] }

/-- A fault-free scripted exchange whose buffered read returns the bytes
of the ASCII string `s`. -/
def envResp (s : String) : ExchangeEnv :=
  { writeOk := true, flushOk := true, readRes := some (strBytes s) }

/-- A scripted exchange whose `write_bytes` faults. -/
def envWriteFault : ExchangeEnv :=
  { writeOk := false, flushOk := true, readRes := some [] }

/-- A scripted exchange where the write succeeds, the async flush
faults, and the module answers `OK\r\n`. -/
def envFlushFault : ExchangeEnv :=
  { writeOk := true, flushOk := false, readRes := some (strBytes "OK\r\n") }

/-- A scripted exchange whose buffered read returns a byte that is not
valid UTF-8. -/
def envBadBytes : ExchangeEnv :=
  { writeOk := true, flushOk := true, readRes := some [255] }

/-- A transport that answers `OK\r\n` on the fourth `auto_baud`
iteration (candidate 9600) and an empty response elsewhere. -/
def envsScan : Nat → ExchangeEnv :=
  fun i => if i = 3 then envResp "OK\r\n" else envResp ""

/-- A transport that never produces a valid acknowledgement. -/
def envsSilent : Nat → ExchangeEnv :=
  fun _ => envResp ""


theorem sendCommandB_eq (st : Hc12State) (env : ExchangeEnv) (cmd : List Nat) :
    sendCommandB st env cmd =
      ({ st with
          strobeHigh := sendStrobeB env,
          trace := st.trace ++ sendTraceB env cmd }, sendOutcomeB env) := by
  rcases st with ⟨sh, bd, rc, tr⟩
  rcases env with ⟨w, f, r⟩
  cases w <;> rcases r with _ | bs <;>
    simp [sendCommandB, sendOutcomeB, sendStrobeB, sendTraceB, traceAdd, delayS,
      setLowS, setHighS] <;>
    cases utf8Decode (bs.take 14) <;> simp

theorem sendCommandA_eq (st : Hc12State) (env : ExchangeEnv) (cmd : List Nat) :
    sendCommandA st env cmd =
      ({ st with
          strobeHigh := sendStrobeA env,
          trace := st.trace ++ sendTraceA env cmd }, sendOutcomeA env) := by
  rcases st with ⟨sh, bd, rc, tr⟩
  rcases env with ⟨w, f, r⟩
  cases w <;> cases f <;> rcases r with _ | bs <;>
    simp [sendCommandA, sendOutcomeA, sendStrobeA, sendTraceA, traceAdd, delayS,
      setLowS, setHighS] <;>
    cases utf8Decode (bs.take 14) <;> simp

theorem sendOutcomeB_ne_crashed (env : ExchangeEnv) :
    sendOutcomeB env ≠ Outcome.crashed := by
  unfold sendOutcomeB
  rcases env with ⟨w, f, r⟩
  cases w <;> rcases r with _ | bs <;> simp <;>
    cases utf8Decode (bs.take 14) <;> simp

theorem sendOutcomeA_ne_crashed (env : ExchangeEnv) :
    sendOutcomeA env ≠ Outcome.crashed := by
  unfold sendOutcomeA
  rcases env with ⟨w, f, r⟩
  cases w <;> cases f <;> rcases r with _ | bs <;> simp <;>
    cases utf8Decode (bs.take 14) <;> simp

theorem sendOutcomeA_flush_eq (env : ExchangeEnv) (hf : env.flushOk = true) :
    sendOutcomeA env = sendOutcomeB env := by
  unfold sendOutcomeA sendOutcomeB
  rw [hf]
  simp

theorem testOutA_flush_eq (env : ExchangeEnv) (hf : env.flushOk = true) :
    testOutA env = testOutB env := by
  unfold testOutA testOutB
  rw [sendOutcomeA_flush_eq env hf]

theorem testOutB_ne_crashed (env : ExchangeEnv) :
    testOutB env ≠ Outcome.crashed := by
  unfold testOutB
  cases h : sendOutcomeB env with
  | ok cs => dsimp only; split <;> simp
  | err e => simp
  | crashed => exact absurd h (sendOutcomeB_ne_crashed env)

theorem testOutA_ne_crashed (env : ExchangeEnv) :
    testOutA env ≠ Outcome.crashed := by
  unfold testOutA
  cases h : sendOutcomeA env with
  | ok cs => dsimp only; split <;> simp
  | err e => simp
  | crashed => exact absurd h (sendOutcomeA_ne_crashed env)

theorem testB_eq (st : Hc12State) (env : ExchangeEnv) :
    testB st env =
      ({ st with
          strobeHigh := sendStrobeB env,
          trace := st.trace ++ sendTraceB env (strBytes "AT") }, testOutB env) := by
  unfold testB testOutB
  rw [sendCommandB_eq]
  cases h : sendOutcomeB env with
  | ok cs => dsimp only; split <;> rfl
  | err e => rfl
  | crashed => rfl

theorem testA_eq (st : Hc12State) (env : ExchangeEnv) :
    testA st env =
      ({ st with
          strobeHigh := sendStrobeA env,
          trace := st.trace ++ sendTraceA env (strBytes "AT") }, testOutA env) := by
  unfold testA testOutA
  rw [sendCommandA_eq]
  cases h : sendOutcomeA env with
  | ok cs => dsimp only; split <;> rfl
  | err e => rfl
  | crashed => rfl

theorem autoBaudGoB_all_fail (envs : Nat → ExchangeEnv) :
    ∀ (cs : List BaudRate) (st : Hc12State) (i : Nat),
      st.reconfigOk = true →
      (∀ k, k < cs.length → testOutB (envs (i + k)) ≠ Outcome.ok ()) →
      (autoBaudGoB envs st i cs).2 = Outcome.err Hc12Error.autoBaudRate ∧
        (autoBaudGoB envs st i cs).1.baud = (cs.map BaudRate.toU32).getLastD st.baud := by
  intro cs
  induction cs with
  | nil =>
    intro st i hrc hfail
    exact ⟨rfl, rfl⟩
  | cons c cs ih =>
    intro st i hrc hfail
    have h0 : testOutB (envs i) ≠ Outcome.ok () := by
      have := hfail 0 (by simp)
      simpa using this
    simp only [autoBaudGoB, setConfigS, hrc, delayS, Bool.true_eq_false, if_false, if_true]
    rw [testB_eq]
    cases h : testOutB (envs i) with
    | ok a =>
      cases a
      exact absurd h h0
    | err e =>
      have ihr := ih
        { st with
            baud := c.toU32,
            strobeHigh := sendStrobeB (envs i),
            trace := (st.trace ++ [Act.setConfigBaud c.toU32] ++ [Act.delayMs 40]) ++
              sendTraceB (envs i) (strBytes "AT") }
        (i + 1) hrc
        (by
          intro k hk
          have := hfail (k + 1) (by simpa using Nat.succ_lt_succ hk)
          simpa [Nat.add_assoc, Nat.add_comm 1 k] using this)
      simpa [List.getLast?_cons, hrc] using ihr
    | crashed => exact absurd h (testOutB_ne_crashed (envs i))

theorem autoBaudGoB_first_success (envs : Nat → ExchangeEnv) :
    ∀ (cs : List BaudRate) (st : Hc12State) (i n : Nat) (c : BaudRate),
      st.reconfigOk = true →
      cs[n]? = some c →
      testOutB (envs (i + n)) = Outcome.ok () →
      (∀ k, k < n → testOutB (envs (i + k)) ≠ Outcome.ok ()) →
      (autoBaudGoB envs st i cs).2 = Outcome.ok c ∧
        (autoBaudGoB envs st i cs).1.baud = c.toU32 := by
  intro cs
  induction cs with
  | nil =>
    intro st i n c hrc hget hok hprev
    simp at hget
  | cons c0 cs ih =>
    intro st i n c hrc hget hok hprev
    simp only [autoBaudGoB, setConfigS, hrc, Bool.true_eq_false, if_false, if_true, delayS]
    rw [testB_eq]
    cases n with
    | zero =>
      simp only [List.getElem?_cons_zero, Option.some.injEq] at hget
      subst hget
      rw [Nat.add_zero] at hok
      rw [hok]
      exact ⟨rfl, rfl⟩
    | succ m =>
      have h0 : testOutB (envs i) ≠ Outcome.ok () := by
        have := hprev 0 (Nat.succ_pos m)
        simpa using this
      cases h : testOutB (envs i) with
      | ok a =>
        cases a
        exact absurd h h0
      | err e =>
        have ihr := ih
          { st with
              baud := c0.toU32,
              strobeHigh := sendStrobeB (envs i),
              trace := (st.trace ++ [Act.setConfigBaud c0.toU32] ++ [Act.delayMs 40]) ++
                sendTraceB (envs i) (strBytes "AT") }
          (i + 1) m c hrc
          (by simpa using hget)
          (by
            have := hok
            rw [show i + (m + 1) = i + 1 + m by omega] at this
            exact this)
          (by
            intro k hk
            have := hprev (k + 1) (Nat.succ_lt_succ hk)
            rw [show i + (k + 1) = i + 1 + k by omega] at this
            exact this)
        simpa [hrc] using ihr
      | crashed => exact absurd h (testOutB_ne_crashed (envs i))

theorem autoBaudGoA_all_fail (envs : Nat → ExchangeEnv) :
    ∀ (cs : List BaudRate) (st : Hc12State) (i : Nat),
      st.reconfigOk = true →
      (∀ k, k < cs.length → testOutA (envs (i + k)) ≠ Outcome.ok ()) →
      (autoBaudGoA envs st i cs).2 = Outcome.err Hc12Error.autoBaudRate ∧
        (autoBaudGoA envs st i cs).1.baud = (cs.map BaudRate.toU32).getLastD st.baud := by
  intro cs
  induction cs with
  | nil =>
    intro st i hrc hfail
    exact ⟨rfl, rfl⟩
  | cons c cs ih =>
    intro st i hrc hfail
    have h0 : testOutA (envs i) ≠ Outcome.ok () := by
      have := hfail 0 (by simp)
      simpa using this
    simp only [autoBaudGoA, setConfigS, hrc, Bool.true_eq_false, if_false, if_true, delayS]
    rw [testA_eq]
    cases h : testOutA (envs i) with
    | ok a =>
      cases a
      exact absurd h h0
    | err e =>
      have ihr := ih
        { st with
            baud := c.toU32,
            strobeHigh := sendStrobeA (envs i),
            trace := (st.trace ++ [Act.setConfigBaud c.toU32] ++ [Act.delayMs 40]) ++
              sendTraceA (envs i) (strBytes "AT") }
        (i + 1) hrc
        (by
          intro k hk
          have := hfail (k + 1) (by simpa using Nat.succ_lt_succ hk)
          simpa [Nat.add_assoc, Nat.add_comm 1 k] using this)
      simpa [List.getLast?_cons, hrc] using ihr
    | crashed => exact absurd h (testOutA_ne_crashed (envs i))

theorem autoBaudGoA_first_success (envs : Nat → ExchangeEnv) :
    ∀ (cs : List BaudRate) (st : Hc12State) (i n : Nat) (c : BaudRate),
      st.reconfigOk = true →
      cs[n]? = some c →
      testOutA (envs (i + n)) = Outcome.ok () →
      (∀ k, k < n → testOutA (envs (i + k)) ≠ Outcome.ok ()) →
      (autoBaudGoA envs st i cs).2 = Outcome.ok c ∧
        (autoBaudGoA envs st i cs).1.baud = c.toU32 := by
  intro cs
  induction cs with
  | nil =>
    intro st i n c hrc hget hok hprev
    simp at hget
  | cons c0 cs ih =>
    intro st i n c hrc hget hok hprev
    simp only [autoBaudGoA, setConfigS, hrc, Bool.true_eq_false, if_false, if_true, delayS]
    rw [testA_eq]
    cases n with
    | zero =>
      simp only [List.getElem?_cons_zero, Option.some.injEq] at hget
      subst hget
      rw [Nat.add_zero] at hok
      rw [hok]
      exact ⟨rfl, rfl⟩
    | succ m =>
      have h0 : testOutA (envs i) ≠ Outcome.ok () := by
        have := hprev 0 (Nat.succ_pos m)
        simpa using this
      cases h : testOutA (envs i) with
      | ok a =>
        cases a
        exact absurd h h0
      | err e =>
        have ihr := ih
          { st with
              baud := c0.toU32,
              strobeHigh := sendStrobeA (envs i),
              trace := (st.trace ++ [Act.setConfigBaud c0.toU32] ++ [Act.delayMs 40]) ++
                sendTraceA (envs i) (strBytes "AT") }
          (i + 1) m c hrc
          (by simpa using hget)
          (by
            have := hok
            rw [show i + (m + 1) = i + 1 + m by omega] at this
            exact this)
          (by
            intro k hk
            have := hprev (k + 1) (Nat.succ_lt_succ hk)
            rw [show i + (k + 1) = i + 1 + k by omega] at this
            exact this)
        simpa [hrc] using ihr
      | crashed => exact absurd h (testOutA_ne_crashed (envs i))

theorem autoBaudGo_flush_eq (envs : Nat → ExchangeEnv)
    (hfl : ∀ k, (envs k).flushOk = true) :
    ∀ (cs : List BaudRate) (stB stA : Hc12State) (i : Nat),
      stB.reconfigOk = stA.reconfigOk →
      (autoBaudGoB envs stB i cs).2 = (autoBaudGoA envs stA i cs).2 := by
  intro cs
  induction cs with
  | nil => intro stB stA i hrc; rfl
  | cons c cs ih =>
    intro stB stA i hrc
    cases hr : stA.reconfigOk with
    | false =>
      have hrB : stB.reconfigOk = false := by rw [hrc, hr]
      simp [autoBaudGoB, autoBaudGoA, setConfigS, hrB, hr]
    | true =>
      have hrB : stB.reconfigOk = true := by rw [hrc, hr]
      simp only [autoBaudGoB, autoBaudGoA, setConfigS, hrB, hr, Bool.true_eq_false,
        if_false, if_true, delayS]
      rw [testB_eq, testA_eq, testOutA_flush_eq (envs i) (hfl i)]
      cases h : testOutB (envs i) with
      | ok a => rfl
      | err e => exact ih _ _ (i + 1) (by simp)
      | crashed => rfl

theorem setConfigS_strobe (st : Hc12State) (n : Nat) :
    (setConfigS st n).strobeHigh = st.strobeHigh := by
  unfold setConfigS
  split <;> rfl

theorem testB_strobe (st : Hc12State) (env : ExchangeEnv) :
    (testB st env).1.strobeHigh = sendStrobeB env := by
  rw [testB_eq]

theorem testA_strobe (st : Hc12State) (env : ExchangeEnv) :
    (testA st env).1.strobeHigh = sendStrobeA env := by
  rw [testA_eq]

theorem setBaudB_strobe (st : Hc12State) (env : ExchangeEnv) (r : BaudRate) :
    (setBaudB st env r).1.strobeHigh = sendStrobeB env := by
  unfold setBaudB
  rw [sendCommandB_eq]
  cases h : sendOutcomeB env with
  | ok cs =>
    dsimp only
    split <;> (try split) <;> simp [setConfigS_strobe]
  | err e => rfl
  | crashed => rfl

theorem setBaudA_strobe (st : Hc12State) (env : ExchangeEnv) (r : BaudRate) :
    (setBaudA st env r).1.strobeHigh = sendStrobeA env := by
  unfold setBaudA
  rw [sendCommandA_eq]
  cases h : sendOutcomeA env with
  | ok cs =>
    dsimp only
    split <;> (try split) <;> simp [setConfigS_strobe]
  | err e => rfl
  | crashed => rfl

theorem setTmValidate_strobe (st1 : Hc12State) (ex : String) (cs : List Char) :
    (setTmValidate st1 ex cs).1.strobeHigh = st1.strobeHigh := by
  unfold setTmValidate
  split
  · rfl
  · split
    · split
      · rfl
      · split
        · rfl
        · split
          · rfl
          · dsimp only
            split <;> simp [setConfigS_strobe]
    · rfl

theorem setTmB_strobe (st : Hc12State) (env : ExchangeEnv) (m : TransmissionMode) :
    (setTransmissionModeB st env m).1.strobeHigh = sendStrobeB env := by
  unfold setTransmissionModeB
  rw [sendCommandB_eq]
  cases h : sendOutcomeB env with
  | ok cs => exact setTmValidate_strobe _ _ _
  | err e => rfl
  | crashed => rfl

theorem setTmA_strobe (st : Hc12State) (env : ExchangeEnv) (m : TransmissionMode) :
    (setTransmissionModeA st env m).1.strobeHigh = sendStrobeA env := by
  unfold setTransmissionModeA
  rw [sendCommandA_eq]
  cases h : sendOutcomeA env with
  | ok cs => exact setTmValidate_strobe _ _ _
  | err e => rfl
  | crashed => rfl

theorem setDefaultB_strobe (st : Hc12State) (env : ExchangeEnv) :
    (setDefaultB st env).1.strobeHigh = sendStrobeB env := by
  unfold setDefaultB
  rw [sendCommandB_eq]
  cases h : sendOutcomeB env with
  | ok cs =>
    dsimp only
    split <;> rfl
  | err e => rfl
  | crashed => rfl

theorem setDefaultA_strobe (st : Hc12State) (env : ExchangeEnv) :
    (setDefaultA st env).1.strobeHigh = sendStrobeA env := by
  unfold setDefaultA
  rw [sendCommandA_eq]
  cases h : sendOutcomeA env with
  | ok cs =>
    dsimp only
    split <;> rfl
  | err e => rfl
  | crashed => rfl

/-- Claim C1, counterexample: starting from a strobe-high state, a
`write_bytes` fault during `test` (after the strobe was driven low)
propagates out of `send_command` and the operation returns with the
strobe line still low, in both the blocking and the async variant —
refuting the claim that the line is high on that exit path. -/
theorem strobe_left_low_on_write_fault :
    st0.strobeHigh = true ∧
    (testB st0 envWriteFault).2 = Outcome.err Hc12Error.uartError ∧
    (testB st0 envWriteFault).1.strobeHigh = false ∧
    (testA st0 envWriteFault).2 = Outcome.err Hc12Error.uartError ∧
    (testA st0 envWriteFault).1.strobeHigh = false := by
  decide

/-- Claim C1, amended: for every command exchange performed by
`send_command` (and hence by `test`, `set_baud`, `set_transmission_mode`
and `set_default`), in both variants, the strobe line is high on return
whenever the transport write, the async flush and the read all succeed
— covering success, response-decode failure and semantic-validation
failure; but on a transport write fault after the strobe was driven low
the operation returns with the line still low. -/
theorem strobe_scoped_on_exchange (st : Hc12State) (env : ExchangeEnv)
    (cmd : List Nat) (m : TransmissionMode) (r : BaudRate) :
    (env.writeOk = true → env.flushOk = true → env.readRes.isSome = true →
      (sendCommandB st env cmd).1.strobeHigh = true ∧
      (sendCommandA st env cmd).1.strobeHigh = true ∧
      (testB st env).1.strobeHigh = true ∧
      (testA st env).1.strobeHigh = true ∧
      (setBaudB st env r).1.strobeHigh = true ∧
      (setBaudA st env r).1.strobeHigh = true ∧
      (setTransmissionModeB st env m).1.strobeHigh = true ∧
      (setTransmissionModeA st env m).1.strobeHigh = true ∧
      (setDefaultB st env).1.strobeHigh = true ∧
      (setDefaultA st env).1.strobeHigh = true) ∧
    (env.writeOk = false →
      (sendCommandB st env cmd).1.strobeHigh = false ∧
      (sendCommandA st env cmd).1.strobeHigh = false ∧
      (testB st env).1.strobeHigh = false ∧
      (testA st env).1.strobeHigh = false ∧
      (setBaudB st env r).1.strobeHigh = false ∧
      (setBaudA st env r).1.strobeHigh = false ∧
      (setTransmissionModeB st env m).1.strobeHigh = false ∧
      (setTransmissionModeA st env m).1.strobeHigh = false ∧
      (setDefaultB st env).1.strobeHigh = false ∧
      (setDefaultA st env).1.strobeHigh = false) := by
  constructor
  · intro hw hf hs
    have hsb : sendStrobeB env = true := by simp [sendStrobeB, hw, hs]
    have hsa : sendStrobeA env = true := by simp [sendStrobeA, hw, hf, hs]
    refine ⟨?_, ?_, ?_, ?_, ?_, ?_, ?_, ?_, ?_, ?_⟩
    · rw [sendCommandB_eq]; exact hsb
    · rw [sendCommandA_eq]; exact hsa
    · rw [testB_strobe]; exact hsb
    · rw [testA_strobe]; exact hsa
    · rw [setBaudB_strobe]; exact hsb
    · rw [setBaudA_strobe]; exact hsa
    · rw [setTmB_strobe]; exact hsb
    · rw [setTmA_strobe]; exact hsa
    · rw [setDefaultB_strobe]; exact hsb
    · rw [setDefaultA_strobe]; exact hsa
  · intro hw
    have hsb : sendStrobeB env = false := by simp [sendStrobeB, hw]
    have hsa : sendStrobeA env = false := by simp [sendStrobeA, hw]
    refine ⟨?_, ?_, ?_, ?_, ?_, ?_, ?_, ?_, ?_, ?_⟩
    · rw [sendCommandB_eq]; exact hsb
    · rw [sendCommandA_eq]; exact hsa
    · rw [testB_strobe]; exact hsb
    · rw [testA_strobe]; exact hsa
    · rw [setBaudB_strobe]; exact hsb
    · rw [setBaudA_strobe]; exact hsa
    · rw [setTmB_strobe]; exact hsb
    · rw [setTmA_strobe]; exact hsa
    · rw [setDefaultB_strobe]; exact hsb
    · rw [setDefaultA_strobe]; exact hsa

/-- Concrete instantiation of `strobe_scoped_on_exchange`, at a
fault-free exchange and at a write-fault exchange. -/
theorem strobe_scoped_on_exchange_witness :
    (testB st0 (envResp "OK\r\n")).1.strobeHigh = true ∧
    (sendCommandB st0 envWriteFault (strBytes "AT")).1.strobeHigh = false := by
  constructor
  · exact ((strobe_scoped_on_exchange st0 (envResp "OK\r\n") (strBytes "AT")
      TransmissionMode.fu2 BaudRate.baud9600).1 rfl rfl rfl).2.2.1
  · exact ((strobe_scoped_on_exchange st0 envWriteFault (strBytes "AT")
      TransmissionMode.fu2 BaudRate.baud9600).2 rfl).1

/-- Claim C2, code-bug evidence: for `set_transmission_mode(Fu2)` with
decoded response `OK+FU2,B9600\r\n`, the blocking implementation
succeeds and reconfigures the transport to 9600 as the claim states,
but the async implementation — whose expected field 0 wrongly carries
the `\r\n` terminator — returns `TransmissionMode` and leaves the baud
rate unchanged (1200 here). -/
theorem setTransmissionMode_compound_response_eval :
    (setTransmissionModeB st0 (envResp "OK+FU2,B9600\r\n") TransmissionMode.fu2).2 =
      Outcome.ok () ∧
    (setTransmissionModeB st0 (envResp "OK+FU2,B9600\r\n") TransmissionMode.fu2).1.baud =
      9600 ∧
    (setTransmissionModeA st0 (envResp "OK+FU2,B9600\r\n") TransmissionMode.fu2).2 =
      Outcome.err Hc12Error.transmissionMode ∧
    (setTransmissionModeA st0 (envResp "OK+FU2,B9600\r\n") TransmissionMode.fu2).1.baud =
      1200 := by
  decide

/-- Claim C3, code-bug evidence: for `set_transmission_mode(Fu2)` with
decoded response `OK+FU2\r\n` (no second field), the async
implementation succeeds without reconfiguring (baud stays 1200) as the
claim states, but the blocking implementation — whose expected field 0
lacks the `\r\n` terminator — returns `TransmissionMode`. -/
theorem setTransmissionMode_plain_response_eval :
    (setTransmissionModeA st0 (envResp "OK+FU2\r\n") TransmissionMode.fu2).2 =
      Outcome.ok () ∧
    (setTransmissionModeA st0 (envResp "OK+FU2\r\n") TransmissionMode.fu2).1.baud =
      1200 ∧
    (setTransmissionModeB st0 (envResp "OK+FU2\r\n") TransmissionMode.fu2).2 =
      Outcome.err Hc12Error.transmissionMode := by
  decide

/-- Claim C5, code-bug evidence: when field 0 is valid (for the blocking
variant) and the second field does not parse after its marker byte, the
`str::parse(..).unwrap()` aborts instead of returning
`TransmissionMode`; an empty second field aborts in the `&s[1..]` slice.
The async variant rejects the same responses at the field-0 comparison,
so the two variants do not even fail the same way. -/
theorem setTransmissionMode_unparsable_field_aborts :
    (setTransmissionModeB st0 (envResp "OK+FU2,Bxyz\r\n") TransmissionMode.fu2).2 =
      Outcome.crashed ∧
    (setTransmissionModeB st0 (envResp "OK+FU2,") TransmissionMode.fu2).2 =
      Outcome.crashed ∧
    (setTransmissionModeA st0 (envResp "OK+FU2,Bxyz\r\n") TransmissionMode.fu2).2 =
      Outcome.err Hc12Error.transmissionMode := by
  decide

/-- Claim C4, counterexample: the two variants are observably different.
A flush fault fails only the async variant (the blocking one never
flushes), and the `set_transmission_mode` expected strings differ, so
the same response sequence produces different results. -/
theorem blocking_async_observable_divergence :
    (testB st0 envFlushFault).2 = Outcome.ok () ∧
    (testA st0 envFlushFault).2 = Outcome.err Hc12Error.uartError ∧
    (setTransmissionModeB st0 (envResp "OK+FU4\r\n") TransmissionMode.fu4).2 =
      Outcome.err Hc12Error.transmissionMode ∧
    (setTransmissionModeA st0 (envResp "OK+FU4\r\n") TransmissionMode.fu4).2 =
      Outcome.ok () := by
  decide

/-- Claim C4, amended: the blocking and async variants return identical
results for `test`, `set_baud`, `set_default` and `auto_baud` on every
response sequence in which flushes succeed; but only the async
`send_command` performs a flush between the write and the
response-settle delay (the blocking variant never flushes), and the
`set_transmission_mode` expected strings differ, so that operation can
return different results for the same response. -/
theorem blocking_async_agreement :
    (∀ st env, env.flushOk = true → (testB st env).2 = (testA st env).2) ∧
    (∀ st env r, env.flushOk = true → (setBaudB st env r).2 = (setBaudA st env r).2) ∧
    (∀ st env, env.flushOk = true → (setDefaultB st env).2 = (setDefaultA st env).2) ∧
    (∀ st envs, (∀ k, (envs k).flushOk = true) →
      (autoBaudB st envs).2 = (autoBaudA st envs).2) ∧
    (∀ env cmd, Act.flushCall ∉ sendTraceB env cmd) ∧
    (∀ env cmd, env.writeOk = true → Act.flushCall ∈ sendTraceA env cmd) ∧
    (∀ st env cmd, (sendCommandB st env cmd).1.trace = st.trace ++ sendTraceB env cmd) ∧
    (∀ st env cmd, (sendCommandA st env cmd).1.trace = st.trace ++ sendTraceA env cmd) := by
  refine ⟨?_, ?_, ?_, ?_, ?_, ?_, ?_, ?_⟩
  · intro st env hf
    rw [testB_eq, testA_eq]
    dsimp only
    rw [testOutA_flush_eq env hf]
  · intro st env r hf
    unfold setBaudB setBaudA
    rw [sendCommandB_eq, sendCommandA_eq, sendOutcomeA_flush_eq env hf]
    cases h : sendOutcomeB env with
    | ok cs =>
      dsimp only
      split <;> (try split) <;> rfl
    | err e => rfl
    | crashed => rfl
  · intro st env hf
    unfold setDefaultB setDefaultA
    rw [sendCommandB_eq, sendCommandA_eq, sendOutcomeA_flush_eq env hf]
    cases h : sendOutcomeB env with
    | ok cs =>
      dsimp only
      split <;> rfl
    | err e => rfl
    | crashed => rfl
  · intro st envs hfl
    exact autoBaudGo_flush_eq envs hfl candidates st st 0 rfl
  · intro env cmd
    rcases env with ⟨w, f, r⟩
    cases w <;> rcases r with _ | bs <;> simp [sendTraceB]
  · intro env cmd hw
    rcases env with ⟨w, f, r⟩
    cases f <;> rcases r with _ | bs <;> simp_all [sendTraceA]
  · intro st env cmd
    rw [sendCommandB_eq]
  · intro st env cmd
    rw [sendCommandA_eq]

/-- Concrete instantiation of `blocking_async_agreement`: agreement of
`test` on a fault-free exchange and of `auto_baud` on a silent
transport. -/
theorem blocking_async_agreement_witness :
    (testB st0 (envResp "OK\r\n")).2 = (testA st0 (envResp "OK\r\n")).2 ∧
    (autoBaudB st0 envsSilent).2 = (autoBaudA st0 envsSilent).2 := by
  constructor
  · exact blocking_async_agreement.1 st0 (envResp "OK\r\n") rfl
  · exact blocking_async_agreement.2.2.2.1 st0 envsSilent (fun k => rfl)

/-- Claim C6 (confirmed): when the byte-level exchange of `set_baud(r)`
succeeds (write, flush for the async variant, read and decode all
succeed) and reconfiguration works, both variants update the transport
to `r` immediately after the exchange; if the decoded response equals
`OK+B<r>\r\n` the operation succeeds, and otherwise it fails with
`Hc12Error::BaudRate` while the transport is nonetheless left at `r`. -/
theorem setBaud_reconfigures_before_check (st : Hc12State) (env : ExchangeEnv)
    (r : BaudRate) (bs : List Nat) (cs : List Char)
    (hrc : st.reconfigOk = true) (hw : env.writeOk = true) (hf : env.flushOk = true)
    (hr : env.readRes = some bs) (hd : utf8Decode (bs.take 14) = some cs) :
    (setBaudB st env r).1.baud = r.toU32 ∧
    (setBaudA st env r).1.baud = r.toU32 ∧
    (cs = (setBaudExpected r).toList →
      (setBaudB st env r).2 = Outcome.ok () ∧ (setBaudA st env r).2 = Outcome.ok ()) ∧
    (cs ≠ (setBaudExpected r).toList →
      (setBaudB st env r).2 = Outcome.err Hc12Error.baudRate ∧
      (setBaudA st env r).2 = Outcome.err Hc12Error.baudRate) := by
  have hob : sendOutcomeB env = Outcome.ok cs := by
    simp [sendOutcomeB, hw, hr, hd]
  have hoa : sendOutcomeA env = Outcome.ok cs := by
    simp [sendOutcomeA, hw, hf, hr, hd]
  unfold setBaudB setBaudA
  rw [sendCommandB_eq, sendCommandA_eq, hob, hoa]
  dsimp only
  simp only [hrc, setConfigS, Bool.true_eq_false, if_false, if_true]
  by_cases hc : cs = (setBaudExpected r).data <;> simp [hc, String.toList]

/-- Concrete instantiation of `setBaud_reconfigures_before_check`:
`set_baud(9600)` against `OK+B4800\r\n` fails with `BaudRate` while the
transport is nonetheless left at 9600. -/
theorem setBaud_reconfigures_before_check_witness :
    (setBaudB st0 (envResp "OK+B4800\r\n") BaudRate.baud9600).2 =
      Outcome.err Hc12Error.baudRate ∧
    (setBaudB st0 (envResp "OK+B4800\r\n") BaudRate.baud9600).1.baud = 9600 := by
  have h := setBaud_reconfigures_before_check st0 (envResp "OK+B4800\r\n")
    BaudRate.baud9600 (strBytes "OK+B4800\r\n") ("OK+B4800\r\n".toList)
    rfl rfl rfl rfl (by decide)
  exact ⟨(h.2.2.2 (by decide)).1, h.1⟩

/-- Claim C7 (confirmed): `auto_baud` scans the candidates in ascending
order 1200 .. 115200, reconfiguring the transport to each candidate
before running `test()`; it returns the first candidate whose test
succeeds and leaves the transport at that rate, and when every test
fails it returns `AutoBaudRate` with the transport left at 115200.
`testOutB`/`testOutA` are the state-independent results of `test()`
(first two conjuncts), so the success hypotheses quantify exactly over
the outcomes of the `test()` calls. -/
theorem autoBaud_scan (st : Hc12State) (envs : Nat → ExchangeEnv)
    (hrc : st.reconfigOk = true) :
    candidates.map BaudRate.toU32 =
      [1200, 2400, 4800, 9600, 19200, 38400, 57600, 115200] ∧
    (∀ s e, (testB s e).2 = testOutB e) ∧
    (∀ s e, (testA s e).2 = testOutA e) ∧
    ((∀ j, j < 8 → testOutB (envs j) ≠ Outcome.ok ()) →
      (autoBaudB st envs).2 = Outcome.err Hc12Error.autoBaudRate ∧
      (autoBaudB st envs).1.baud = 115200) ∧
    (∀ n c, candidates[n]? = some c → testOutB (envs n) = Outcome.ok () →
      (∀ k, k < n → testOutB (envs k) ≠ Outcome.ok ()) →
      (autoBaudB st envs).2 = Outcome.ok c ∧ (autoBaudB st envs).1.baud = c.toU32) ∧
    ((∀ j, j < 8 → testOutA (envs j) ≠ Outcome.ok ()) →
      (autoBaudA st envs).2 = Outcome.err Hc12Error.autoBaudRate ∧
      (autoBaudA st envs).1.baud = 115200) ∧
    (∀ n c, candidates[n]? = some c → testOutA (envs n) = Outcome.ok () →
      (∀ k, k < n → testOutA (envs k) ≠ Outcome.ok ()) →
      (autoBaudA st envs).2 = Outcome.ok c ∧ (autoBaudA st envs).1.baud = c.toU32) := by
  refine ⟨rfl, ?_, ?_, ?_, ?_, ?_, ?_⟩
  · intro s e
    rw [testB_eq]
  · intro s e
    rw [testA_eq]
  · intro h
    have hg := autoBaudGoB_all_fail envs candidates st 0 hrc
      (by
        intro k hk
        have hk8 : k < 8 := by simpa [candidates] using hk
        simpa using h k hk8)
    refine ⟨hg.1, ?_⟩
    have := hg.2
    simpa [candidates, BaudRate.toU32] using this
  · intro n c hget hok hprev
    exact autoBaudGoB_first_success envs candidates st 0 n c hrc hget
      (by simpa using hok) (by intro k hk; simpa using hprev k hk)
  · intro h
    have hg := autoBaudGoA_all_fail envs candidates st 0 hrc
      (by
        intro k hk
        have hk8 : k < 8 := by simpa [candidates] using hk
        simpa using h k hk8)
    refine ⟨hg.1, ?_⟩
    have := hg.2
    simpa [candidates, BaudRate.toU32] using this
  · intro n c hget hok hprev
    exact autoBaudGoA_first_success envs candidates st 0 n c hrc hget
      (by simpa using hok) (by intro k hk; simpa using hprev k hk)

/-- Concrete instantiation of `autoBaud_scan`: a transport answering
only at 9600 yields 9600 with the transport left there; a silent
transport yields `AutoBaudRate` with the transport left at 115200. -/
theorem autoBaud_scan_witness :
    (autoBaudB st0 envsScan).2 = Outcome.ok BaudRate.baud9600 ∧
    (autoBaudB st0 envsScan).1.baud = 9600 ∧
    (autoBaudB st0 envsSilent).2 = Outcome.err Hc12Error.autoBaudRate ∧
    (autoBaudB st0 envsSilent).1.baud = 115200 := by
  have h1 := (autoBaud_scan st0 envsScan rfl).2.2.2.2.1 3 BaudRate.baud9600
    (by decide) (by decide) (by decide)
  have h2 := (autoBaud_scan st0 envsSilent rfl).2.2.2.1 (by decide)
  exact ⟨h1.1, h1.2, h2.1, h2.2⟩

/-- Claim C8 (confirmed): `test()` writes the command `AT`; when the
exchange's transport steps succeed, it succeeds exactly when the
decoded response equals `OK\r\n`, any other decoded text yields
`Hc12Error::Test`, and bytes that fail to decode yield the distinct
`Hc12Error::InvalidResponse` — in both variants. -/
theorem test_semantics (st : Hc12State) (env : ExchangeEnv) (bs : List Nat)
    (hw : env.writeOk = true) (hf : env.flushOk = true)
    (hr : env.readRes = some bs) :
    Act.writeBytes (strBytes "AT") ∈ (testB st env).1.trace ∧
    Act.writeBytes (strBytes "AT") ∈ (testA st env).1.trace ∧
    (∀ cs, utf8Decode (bs.take 14) = some cs →
      (cs = "OK\r\n".toList →
        (testB st env).2 = Outcome.ok () ∧ (testA st env).2 = Outcome.ok ()) ∧
      (cs ≠ "OK\r\n".toList →
        (testB st env).2 = Outcome.err Hc12Error.test ∧
        (testA st env).2 = Outcome.err Hc12Error.test)) ∧
    (utf8Decode (bs.take 14) = none →
      (testB st env).2 = Outcome.err Hc12Error.invalidResponse ∧
      (testA st env).2 = Outcome.err Hc12Error.invalidResponse) := by
  refine ⟨?_, ?_, ?_, ?_⟩
  · rw [testB_eq]
    simp [sendTraceB]
  · rw [testA_eq]
    simp [sendTraceA, hw, hf]
  · intro cs hd
    have hob : sendOutcomeB env = Outcome.ok cs := by
      simp [sendOutcomeB, hw, hr, hd]
    have hoa : sendOutcomeA env = Outcome.ok cs := by
      simp [sendOutcomeA, hw, hf, hr, hd]
    rw [testB_eq, testA_eq]
    dsimp only
    unfold testOutB testOutA
    rw [hob, hoa]
    constructor
    · intro hc
      simp [hc]
    · intro hc
      have hc2 : ¬cs = ['O', 'K', '\r', '\n'] := by simpa using hc
      simp [hc2]
  · intro hd
    have hob : sendOutcomeB env = Outcome.err Hc12Error.invalidResponse := by
      simp [sendOutcomeB, hw, hr, hd]
    have hoa : sendOutcomeA env = Outcome.err Hc12Error.invalidResponse := by
      simp [sendOutcomeA, hw, hf, hr, hd]
    rw [testB_eq, testA_eq]
    dsimp only
    unfold testOutB testOutA
    rw [hob, hoa]
    exact ⟨rfl, rfl⟩

/-- Concrete instantiation of `test_semantics`: success on `OK\r\n`,
`Test` on the wrong terminator `OK\n`, `InvalidResponse` on an invalid
byte. -/
theorem test_semantics_witness :
    (testB st0 (envResp "OK\r\n")).2 = Outcome.ok () ∧
    (testB st0 (envResp "OK\n")).2 = Outcome.err Hc12Error.test ∧
    (testB st0 envBadBytes).2 = Outcome.err Hc12Error.invalidResponse := by
  refine ⟨?_, ?_, ?_⟩
  · exact (((test_semantics st0 (envResp "OK\r\n") (strBytes "OK\r\n")
      rfl rfl rfl).2.2.1 ("OK\r\n".toList) (by decide)).1 rfl).1
  · exact (((test_semantics st0 (envResp "OK\n") (strBytes "OK\n")
      rfl rfl rfl).2.2.1 ("OK\n".toList) (by decide)).2 (by decide)).1
  · exact ((test_semantics st0 envBadBytes [255]
      rfl rfl rfl).2.2.2 (by decide)).1

/-- Claim C9 (confirmed): for every `BaudRate`, parsing the decimal
string produced by the `&str` conversion yields the same integer as the
`u32` conversion. -/
theorem baudRate_str_roundtrip (r : BaudRate) :
    parseU32 (r.toStr.toList) = some r.toU32 := by
  cases r <;> decide

/-- Claim C10 (confirmed): starting from the pin's initial `Level::Low`,
the blocking constructor's strobe transitions (high then low) leave the
line low, while the async constructor's (high only) leave it high — the
two constructors establish different initial strobe states. -/
theorem constructors_strobe_states_differ :
    strobeAfter false newBlockingStrobeActs = false ∧
    strobeAfter false newAsyncStrobeActs = true ∧
    strobeAfter false newBlockingStrobeActs ≠ strobeAfter false newAsyncStrobeActs := by
  decide
